import Mathlib

/-!
Shallow embedding of hunterdishner/gomux (gomux.go) and proofs about its
response dispatch pipeline, route registration, configuration and lifecycle.

External collaborators (the errors package, encoding/json, net/http's
ResponseWriter discipline, gorilla/mux registration, freeport) are modelled
abstractly at the narrow interfaces gomux.go uses, following the package's
documentation. Handlers are evaluated at a single request; direct writes a
business handler might itself perform on the writer are outside the claims
and not modelled.
-/

namespace Gomux

/-! ### The errors package (external: github.com/hunterdishner/errors) -/

/-- Failure kinds used by gomux.go: errors.Invalid, errors.Encoding,
errors.IO, errors.HTTP. -/
inductive ErrKind where
  | invalid
  | encoding
  | ioErr
  | httpErr
  deriving DecidableEq, Repr

/-- errors.Error: structured error with an HTTP status code, kind, message
and stack, serialized as the JSON object with fields code/op/kind/err/stack
(op omitted, never set by gomux.go). -/
structure TypedError where
  code : Int
  kind : ErrKind
  msg : String
  stack : List String
  deriving DecidableEq, Repr

/-- errors.E smart constructor; stack capture is abstracted to the empty
stack since no claim observes stack contents. -/
def errsE (code : Int) (kind : ErrKind) (msg : String) : TypedError :=
  { code := code, kind := kind, msg := msg, stack := [] }

/-- errors.CodeServerError: the package's HTTP 500 status constant. -/
def CodeServerError : Int := 500

/-- net/http status constants used by gomux.go. -/
def StatusInternalServerError : Int := 500

def StatusOK : Int := 200

def StatusUnprocessableEntity : Int := 422

/-! ### Handler return values, Go error values, JSON bodies -/

/-- The interface value a business handler returns as its first component:
Go nil (always JSON-encodes to null), or a non-nil value abstracted by
whether encoding/json can encode it and, when it can, by its encoding. -/
inductive RetVal where
  | nil
  | val (encOk : Bool) (enc : String)
  deriving DecidableEq, Repr

/-- A Go error value as seen by the type switch in responseHandler:
a *errors.Error, or any other error. -/
inductive GoErr where
  | typed (e : TypedError)
  | untyped (msg : String)
  deriving DecidableEq, Repr

/-- The interface value held in the local `data` of responseHandler. -/
inductive Payload where
  | ofVal (v : RetVal)
  | ofErr (e : TypedError)
  deriving DecidableEq, Repr

/-- One encoded JSON body chunk as handed to w.Write. -/
inductive EncBody where
  | nullBody
  | valBody (enc : String)
  | errBody (e : TypedError)
  deriving DecidableEq, Repr

/-- json encoding of a handler return value: nil yields null; a non-nil
value encodes iff encoding/json supports its type. -/
def encodeRet : RetVal → Option EncBody
  | .nil => some .nullBody
  | .val true enc => some (.valBody enc)
  | .val false _ => none

/-- json encoding of the dispatched payload; a *errors.Error always has an
encodable JSON form (see the README's error-body example). -/
def encodePayload : Payload → Option EncBody
  | .ofVal v => encodeRet v
  | .ofErr e => some (.errBody e)

/-! ### The response writer and transport -/

/-- Observable state accumulated through the http.ResponseWriter plus the
log.Printf diagnostics: the Content-Type header, every WriteHeader call in
order, the successful body writes, the number of w.Write attempts, and the
logged structured errors. -/
structure RespState where
  contentType : Option String
  writeHeaderCalls : List Int
  bodyWrites : List EncBody
  bodyWriteAttempts : Nat
  logs : List TypedError
  deriving DecidableEq, Repr

def RespState.empty : RespState :=
  { contentType := none, writeHeaderCalls := [], bodyWrites := [],
    bodyWriteAttempts := 0, logs := [] }

/-- w.WriteHeader(c): every call is recorded. net/http sends only the first
status line and ignores later calls as superfluous, so the effective wire
status is the head of the call list. -/
def writeHeader (c : Int) (st : RespState) : RespState :=
  { st with writeHeaderCalls := st.writeHeaderCalls ++ [c] }

/-- The status line actually sent on the wire, per net/http semantics. -/
def effectiveStatus (st : RespState) : Option Int :=
  st.writeHeaderCalls.head?

/-- The transport under the writer: whether w.Write fails (e.g. a broken
connection). -/
structure Conn where
  writeFails : Bool
  deriving DecidableEq, Repr

/-! ### writeContent and responseHandler (gomux.go:227-268) -/

/-- writeContent (gomux.go:254-268): encode data into a buffer; on encode
error call WriteHeader(500) and return an Encoding/CodeServerError error;
otherwise attempt w.Write, and on write error call WriteHeader(500) and
return an IO/CodeServerError error; on success return nil. The underlying
error texts are abstracted to fixed messages. -/
def writeContent (c : Conn) (data : Payload) (st : RespState) :
    RespState × Option TypedError :=
  match encodePayload data with
  | none =>
      (writeHeader StatusInternalServerError st,
       some (errsE CodeServerError .encoding "json encode error"))
  | some b =>
      let st := { st with bodyWriteAttempts := st.bodyWriteAttempts + 1 }
      if c.writeFails then
        (writeHeader StatusInternalServerError st,
         some (errsE CodeServerError .ioErr "write error"))
      else
        ({ st with bodyWrites := st.bodyWrites ++ [b] }, none)

/-- responseHandler (gomux.go:227-252), evaluated at one request: set the
JSON content type, run fn (its outcome for this request is `fnOut`),
classify the error by the type switch, write the status, then write the
body via writeContent, logging a 422 Invalid wrap of any writeContent
error. -/
def responseHandler (fnOut : RetVal × Option GoErr) (c : Conn) : RespState :=
  let st0 := { RespState.empty with contentType := some "application/json" }
  let step :=
    match fnOut.2 with
    | some (.typed e) =>
        let e1 := if e.code = 0 then { e with code := StatusInternalServerError } else e
        (writeHeader e1.code st0, Payload.ofErr e1)
    | some (.untyped m) =>
        (writeHeader CodeServerError st0,
         Payload.ofErr (errsE CodeServerError .invalid m))
    | none => (writeHeader StatusOK st0, Payload.ofVal fnOut.1)
  match writeContent c step.2 step.1 with
  | (st, some werr) =>
      { st with logs := st.logs ++
          [{ code := StatusUnprocessableEntity, kind := .invalid,
             msg := werr.msg, stack := werr.stack }] }
  | (st, none) => st

/-- The status the classification step (gomux.go:232-246) selects for a
given fn outcome. -/
def statusOf : RetVal × Option GoErr → Int
  | (_, some (.typed e)) => if e.code = 0 then 500 else e.code
  | (_, some (.untyped _)) => 500
  | (_, none) => 200

/-! ### Path normalization and route registration (gomux.go:90-201) -/

/-- strings.TrimPrefix from the Go standard library: remove pre once when it
is a prefix of s, otherwise return s unchanged. -/
def trimPrefixStr (s pre : String) : String :=
  if pre.data.isPrefixOf s.data then ⟨s.data.drop pre.data.length⟩ else s

/-- The path rewrite performed by AddRoutes (gomux.go:189). -/
def normalizePath (p : String) : String :=
  "/" ++ trimPrefixStr p "/"

/-- A handler function as registered with the external router: a raw
http.HandlerFunc, or the dispatch-adapter wrapping of a ServiceHandler.
Handlers are identified abstractly by ids. -/
inductive HFunc where
  | raw (id : Nat)
  | adaptedFrom (id : Nat)
  deriving DecidableEq, Repr

/-- Route (gomux.go:90-95): both handler fields are nil-able. -/
structure Route where
  Method : String
  Path : String
  Handler : Option Nat
  HandlerFunc : Option Nat
  deriving DecidableEq, Repr

/-- The crypto/tls policy fields gomux.go sets (gomux.go:64-74); cipher and
curve identifiers are the numeric constants of crypto/tls. -/
structure TLSConf where
  minVersion : Nat
  curvePreferences : List Nat
  preferServerCipherSuites : Bool
  cipherSuites : List Nat
  deriving DecidableEq, Repr

/-- The rs/cors policy fields gomux.go sets (gomux.go:75-80). -/
structure CorsConf where
  allowedOrigins : List String
  allowCredentials : Bool
  allowedMethods : List String
  allowedHeaders : List String
  deriving DecidableEq, Repr

/-- Server (gomux.go:20-28). The gorilla router handle is modelled as the
list of (method, normalized path, handler) registrations it has accepted,
scoped under the /name prefix; the stored context is not modelled. -/
structure Server where
  name : String
  mux : List (String × String × Option HFunc)
  tls : Bool
  port : Int
  tlsconfig : TLSConf
  cors : CorsConf
  deriving DecidableEq, Repr

/-- Option (gomux.go:32), a closure mutating the server under construction.
Named GOption to avoid clashing with Lean's Option. -/
def GOption := Server → Server

/-- TLS (gomux.go:34-38). -/
def TLS : GOption := fun s => { s with tls := true }

/-- TLSConfig (gomux.go:40-45): sets the policy and enables TLS. -/
def TLSConfig (conf : TLSConf) : GOption := fun s =>
  { s with tlsconfig := conf, tls := true }

/-- CustomCors (gomux.go:47-51). -/
def CustomCors (c : CorsConf) : GOption := fun s => { s with cors := c }

/-- Port (gomux.go:53-57). -/
def Port (p : Int) : GOption := fun s => { s with port := p }

/-- The default TLS policy of New (gomux.go:64-74): TLS 1.2 minimum (771 =
0x0303), curves P521/P384/P256 (25, 24, 23), server cipher preference, and
the four AES-256 suites 0xC030, 0xC014, 0x009D, 0x0035. -/
def defaultTLSConf : TLSConf :=
  { minVersion := 771,
    curvePreferences := [25, 24, 23],
    preferServerCipherSuites := true,
    cipherSuites := [49200, 49172, 157, 53] }

/-- The default CORS policy of New (gomux.go:75-80). -/
def defaultCors : CorsConf :=
  { allowedOrigins := ["*"], allowCredentials := true,
    allowedMethods := ["GET", "POST", "OPTIONS", "PUT", "DELETE"],
    allowedHeaders := ["Origin", "Content-Type", "Accept", "Authorization"] }

/-- New (gomux.go:59-88): build the default server, then apply the option
closures in the order given. -/
def New (name : String) (opts : List GOption) : Server :=
  opts.foldl (fun s o => o s)
    { name := name, mux := [], tls := false, port := 0,
      tlsconfig := defaultTLSConf, cors := defaultCors }

/-- The handler AddRoutes ends up registering for a route (gomux.go:190-192):
when Handler is set, HandlerFunc is overwritten with the adapter wrapping of
Handler; otherwise the raw HandlerFunc (possibly nil) is used as is. -/
def routeHFunc (r : Route) : Option HFunc :=
  match r.Handler with
  | some h => some (.adaptedFrom h)
  | none => r.HandlerFunc.map HFunc.raw

/-- One iteration of the AddRoutes loop (gomux.go:188-198): normalize the
path, resolve the handler variant, and register with the external router.
regErr models when the router's GetError is non-nil for a (method, path)
registration; on failure a 422 Invalid error is appended to the log and the
router is left without a usable registration. -/
def addRoute (regErr : String → String → Option String)
    (acc : Server × List TypedError) (r : Route) : Server × List TypedError :=
  match regErr r.Method (normalizePath r.Path) with
  | some e => (acc.1, acc.2 ++ [errsE StatusUnprocessableEntity .invalid e])
  | none =>
      ({ acc.1 with
          mux := acc.1.mux ++ [(r.Method, normalizePath r.Path, routeHFunc r)] },
       acc.2)

/-- AddRoutes (gomux.go:187-201): fold the loop body over the routes and
return the server for chaining, together with the log.Printf diagnostics
emitted along the way. -/
def AddRoutes (regErr : String → String → Option String)
    (s : Server) (routes : List Route) : Server × List TypedError :=
  routes.foldl (addRoute regErr) (s, [])

/-! ### Server lifecycle (gomux.go:203-225) -/

/-- The http.Server configuration assembled by Serve just before the
blocking listen call (gomux.go:212-224): address, the CORS-wrapped route
table, TLS policy, the forced-empty TLSNextProto map, and whether TLS
serving starts with the fixed certificate/key file names. -/
structure HTTPServerConf where
  addr : String
  corsPolicy : CorsConf
  routes : List (String × String × Option HFunc)
  tlsconfig : TLSConf
  tlsNextProtoEmpty : Bool
  useTLS : Bool
  certFile : String
  keyFile : String
  deriving DecidableEq, Repr

def mkConf (s : Server) : HTTPServerConf :=
  { addr := ":" ++ toString s.port, corsPolicy := s.cors, routes := s.mux,
    tlsconfig := s.tlsconfig, tlsNextProtoEmpty := true, useTLS := s.tls,
    certFile := "server.crt", keyFile := "server.key" }

/-- Serve (gomux.go:203-225) up to the blocking listen call: when no port is
configured, acquire one from the external freeport utility (getFreePort),
failing with a CodeServerError/HTTP structured error; otherwise build the
listener configuration from the server as configured. -/
def Serve (getFreePort : Except String Int) (s : Server) :
    Except TypedError HTTPServerConf :=
  if s.port = 0 then
    match getFreePort with
    | .error e => .error (errsE CodeServerError .httpErr e)
    | .ok free => .ok (mkConf { s with port := free })
  else .ok (mkConf s)

end Gomux

namespace Gomux

/-- C1: when fn returns a structured error, its code is written as the HTTP
status when non-zero, 500 when zero, and (on a working transport) the error
object itself is the serialized response body. -/
theorem typedError_status_and_body (v : RetVal) (e : TypedError) (c : Conn)
    (h : c.writeFails = false) :
    (responseHandler (v, some (.typed e)) c).writeHeaderCalls
        = [if e.code = 0 then 500 else e.code]
    ∧ (responseHandler (v, some (.typed e)) c).bodyWrites
        = [.errBody (if e.code = 0 then { e with code := 500 } else e)] := by
  by_cases h0 : e.code = 0 <;>
    simp [responseHandler, writeContent, encodePayload, writeHeader,
      RespState.empty, errsE, StatusInternalServerError, h, h0]

/-- Witness for C1 at a concrete structured error with code 404. -/
theorem typedError_status_and_body_instance :
    (responseHandler (.nil, some (.typed (errsE 404 .invalid "nf"))) ⟨false⟩).writeHeaderCalls
        = [404]
    ∧ (responseHandler (.nil, some (.typed (errsE 404 .invalid "nf"))) ⟨false⟩).bodyWrites
        = [.errBody (errsE 404 .invalid "nf")] := by
  have h := typedError_status_and_body .nil (errsE 404 .invalid "nf") ⟨false⟩ rfl
  simpa [errsE] using h

/-- C3 counterexample: when the handler result fails to JSON-encode,
writeContent issues a second WriteHeader(500) call after the 200 status was
already written, so the adapter does not merely log and return. -/
theorem writeContent_extra_writeHeader_call :
    (responseHandler (.val false "chanValue", none) ⟨false⟩).writeHeaderCalls = [200, 500]
    ∧ (responseHandler (.val false "chanValue", none) ⟨false⟩).writeHeaderCalls.length ≠ 1 := by
  decide

/-- C3 amended: the first WriteHeader call carries the classified status and
is the only effective status line on the wire (net/http drops later calls as
superfluous); at most one body write is attempted; on the success path the
status call is unique and nothing is logged, while a serialization or
transport failure adds exactly one diagnostic log entry but also one
additional, superfluous WriteHeader(500) call. -/
theorem dispatch_status_discipline (fnOut : RetVal × Option GoErr) (c : Conn) :
    effectiveStatus (responseHandler fnOut c) = some (statusOf fnOut)
    ∧ (responseHandler fnOut c).bodyWriteAttempts ≤ 1
    ∧ ((responseHandler fnOut c).writeHeaderCalls = [statusOf fnOut]
        ∧ (responseHandler fnOut c).logs = []
       ∨ (responseHandler fnOut c).writeHeaderCalls = [statusOf fnOut, 500]
        ∧ (responseHandler fnOut c).logs.length = 1) := by
  obtain ⟨v, oe⟩ := fnOut
  obtain ⟨wf⟩ := c
  match oe, v, wf with
  | some (.typed e), v, wf =>
      by_cases h0 : e.code = 0 <;> cases wf <;>
        simp [responseHandler, writeContent, encodePayload, writeHeader,
          effectiveStatus, statusOf, RespState.empty, errsE,
          StatusInternalServerError, h0]
  | some (.untyped m), v, wf =>
      cases wf <;>
        simp [responseHandler, writeContent, encodePayload, writeHeader,
          effectiveStatus, statusOf, RespState.empty, errsE,
          StatusInternalServerError, CodeServerError]
  | none, .nil, wf =>
      cases wf <;>
        simp [responseHandler, writeContent, encodePayload, encodeRet, writeHeader,
          effectiveStatus, statusOf, RespState.empty, errsE,
          StatusInternalServerError, StatusOK]
  | none, .val ok enc, wf =>
      cases ok <;> cases wf <;>
        simp [responseHandler, writeContent, encodePayload, encodeRet, writeHeader,
          effectiveStatus, statusOf, RespState.empty, errsE,
          StatusInternalServerError, StatusOK]

/-- C4: when fn returns a non-structured error, the adapter writes status
500 and the body is a fresh structured error with code 500 and kind Invalid
wrapping the original message — never the original error shape. -/
theorem untypedError_wrapped_500 (v : RetVal) (m : String) (c : Conn)
    (h : c.writeFails = false) :
    (responseHandler (v, some (.untyped m)) c).writeHeaderCalls = [500]
    ∧ (responseHandler (v, some (.untyped m)) c).bodyWrites
        = [.errBody { code := 500, kind := .invalid, msg := m, stack := [] }] := by
  simp [responseHandler, writeContent, encodePayload, writeHeader,
    RespState.empty, errsE, CodeServerError, h]

/-- Witness for C4 at a concrete opaque error. -/
theorem untypedError_wrapped_500_instance :
    (responseHandler (.nil, some (.untyped "driver broke")) ⟨false⟩).writeHeaderCalls = [500]
    ∧ (responseHandler (.nil, some (.untyped "driver broke")) ⟨false⟩).bodyWrites
        = [.errBody { code := 500, kind := .invalid, msg := "driver broke", stack := [] }] :=
  untypedError_wrapped_500 .nil "driver broke" ⟨false⟩ rfl

/-- C5: when fn returns a nil error, status 200 is written; the encoded
result (null for a nil result) is the body, and the body is never
error-shaped. -/
theorem nilError_status200_body (v : RetVal) (c : Conn)
    (h : c.writeFails = false) :
    effectiveStatus (responseHandler (v, none) c) = some 200
    ∧ (∀ b, encodeRet v = some b → (responseHandler (v, none) c).bodyWrites = [b])
    ∧ (responseHandler (.nil, none) c).bodyWrites = [.nullBody]
    ∧ (∀ e, EncBody.errBody e ∉ (responseHandler (v, none) c).bodyWrites) := by
  match v with
  | .nil =>
      simp [responseHandler, writeContent, encodePayload, encodeRet, writeHeader,
        effectiveStatus, RespState.empty, StatusOK, h]
  | .val ok enc =>
      cases ok <;>
        simp [responseHandler, writeContent, encodePayload, encodeRet, writeHeader,
          effectiveStatus, RespState.empty, StatusOK, StatusInternalServerError, errsE, h]

/-- Witness for C5 at a concrete encodable result and at nil. -/
theorem nilError_status200_body_instance :
    effectiveStatus (responseHandler (.val true "[1]", none) ⟨false⟩) = some 200
    ∧ (responseHandler (.val true "[1]", none) ⟨false⟩).bodyWrites = [.valBody "[1]"]
    ∧ (responseHandler (.nil, none) ⟨false⟩).bodyWrites = [.nullBody] := by
  have h := nilError_status200_body (.val true "[1]") ⟨false⟩ rfl
  exact ⟨h.1, h.2.1 _ rfl, h.2.2.1⟩

/-- C9: a structured error carrying code 0 is mutated to code 500 before
serialization, so the serialized body's code field reads 500 and matches the
written 500 status. -/
theorem zeroCode_rewritten_to_500 (v : RetVal) (e : TypedError) (c : Conn)
    (h0 : e.code = 0) (h : c.writeFails = false) :
    (responseHandler (v, some (.typed e)) c).bodyWrites
        = [.errBody { e with code := 500 }]
    ∧ (responseHandler (v, some (.typed e)) c).writeHeaderCalls = [500] := by
  simp [responseHandler, writeContent, encodePayload, writeHeader,
    RespState.empty, errsE, StatusInternalServerError, h, h0]

/-- Witness for C9 at a concrete structured error with code 0. -/
theorem zeroCode_rewritten_to_500_instance :
    (responseHandler (.nil, some (.typed (errsE 0 .invalid "oops"))) ⟨false⟩).bodyWrites
        = [.errBody (errsE 500 .invalid "oops")]
    ∧ (responseHandler (.nil, some (.typed (errsE 0 .invalid "oops"))) ⟨false⟩).writeHeaderCalls
        = [500] := by
  have h := zeroCode_rewritten_to_500 .nil (errsE 0 .invalid "oops") ⟨false⟩ rfl rfl
  simpa [errsE] using h

/-- Helper: the normalized path is a slash consed onto the once-trimmed
input. -/
theorem normalizePath_data (p : String) :
    (normalizePath p).data = '/' :: (trimPrefixStr p "/").data := by
  simp [normalizePath, String.data_append]

/-- C2 counterexample: strings.TrimPrefix strips at most one leading slash,
so the input path with two leading slashes does not register as /users. -/
theorem normalizePath_double_slash :
    normalizePath "//users" ≠ "/users" ∧ normalizePath "//users" = "//users" := by
  decide

/-- C2 amended: normalization prepends a slash after stripping at most one
leading slash, so every registered path starts with a slash and the rewrite
is idempotent; the inputs users and /users both normalize to /users, but
//users keeps its second slash and stays //users. -/
theorem normalizePath_single_strip (p : String) :
    normalizePath (normalizePath p) = normalizePath p
    ∧ (normalizePath p).data.head? = some '/'
    ∧ normalizePath "users" = "/users"
    ∧ normalizePath "/users" = "/users"
    ∧ normalizePath "//users" = "//users" := by
  refine ⟨?_, by rw [normalizePath_data]; rfl, by decide, by decide, by decide⟩
  apply String.ext
  rw [normalizePath_data p, normalizePath_data (normalizePath p)]
  have h2 : (trimPrefixStr (normalizePath p) "/").data = (trimPrefixStr p "/").data := by
    have hd := normalizePath_data p
    simp [trimPrefixStr, hd, List.isPrefixOf]
  rw [h2]

/-- Helper: folding the AddRoutes loop from an arbitrary log accumulator
only prepends that accumulator to the logs and leaves the server alone. -/
theorem addRoutes_go (regErr : String → String → Option String)
    (xs : List Route) (s : Server) (l0 : List TypedError) :
    xs.foldl (addRoute regErr) (s, l0)
      = ((AddRoutes regErr s xs).1, l0 ++ (AddRoutes regErr s xs).2) := by
  induction xs generalizing s l0 with
  | nil => simp [AddRoutes]
  | cons x xs ih =>
      cases h : regErr x.Method (normalizePath x.Path) with
      | none =>
          simp only [AddRoutes, List.foldl_cons, addRoute, h]
          rw [ih, ih]
          simp
      | some e =>
          simp only [AddRoutes, List.foldl_cons, addRoute, h]
          rw [ih, ih]
          simp

/-- Helper: AddRoutes distributes over concatenation of route lists. -/
theorem addRoutes_append (regErr : String → String → Option String)
    (s : Server) (xs ys : List Route) :
    AddRoutes regErr s (xs ++ ys)
      = ((AddRoutes regErr (AddRoutes regErr s xs).1 ys).1,
         (AddRoutes regErr s xs).2
           ++ (AddRoutes regErr (AddRoutes regErr s xs).1 ys).2) := by
  unfold AddRoutes
  rw [List.foldl_append]
  have h := addRoutes_go regErr ys (List.foldl (addRoute regErr) (s, []) xs).1
    (List.foldl (addRoute regErr) (s, []) xs).2
  simpa [AddRoutes] using h

/-- C6: a route whose registration fails contributes exactly one logged 422
Invalid error; the server outcome is as if the surrounding routes had been
registered without it, so every subsequent route is still processed and
AddRoutes still returns the server for chaining. -/
theorem addRoutes_best_effort (regErr : String → String → Option String)
    (s : Server) (pre : List Route) (r : Route) (post : List Route) (e : String)
    (h : regErr r.Method (normalizePath r.Path) = some e) :
    (AddRoutes regErr s (pre ++ r :: post)).1
        = (AddRoutes regErr (AddRoutes regErr s pre).1 post).1
    ∧ (AddRoutes regErr s (pre ++ r :: post)).2
        = (AddRoutes regErr s pre).2
          ++ errsE StatusUnprocessableEntity .invalid e
            :: (AddRoutes regErr (AddRoutes regErr s pre).1 post).2 := by
  have h1 := addRoutes_append regErr s pre (r :: post)
  have h2 : AddRoutes regErr (AddRoutes regErr s pre).1 (r :: post)
      = ((AddRoutes regErr (AddRoutes regErr s pre).1 post).1,
         errsE StatusUnprocessableEntity .invalid e
           :: (AddRoutes regErr (AddRoutes regErr s pre).1 post).2) := by
    unfold AddRoutes
    rw [List.foldl_cons]
    have h3 := addRoutes_go regErr post (AddRoutes regErr s pre).1
      [errsE StatusUnprocessableEntity .invalid e]
    simp only [addRoute, h]
    simpa [AddRoutes] using h3
  rw [h1, h2]
  simp

/-- Witness for C6: a conflicting middle route is logged with code 422 while
the routes before and after it are still registered. -/
theorem addRoutes_best_effort_instance :
    (AddRoutes (fun _ p => if p = "/users" then some "conflict" else none)
        (New "api" [])
        ([⟨"GET", "/a", some 1, none⟩]
          ++ (⟨"GET", "users", some 2, none⟩ : Route)
            :: [⟨"GET", "/b", some 3, none⟩])).1
      = (AddRoutes (fun _ p => if p = "/users" then some "conflict" else none)
          (AddRoutes (fun _ p => if p = "/users" then some "conflict" else none)
            (New "api" []) [⟨"GET", "/a", some 1, none⟩]).1
          [⟨"GET", "/b", some 3, none⟩]).1
    ∧ (AddRoutes (fun _ p => if p = "/users" then some "conflict" else none)
        (New "api" [])
        ([⟨"GET", "/a", some 1, none⟩]
          ++ (⟨"GET", "users", some 2, none⟩ : Route)
            :: [⟨"GET", "/b", some 3, none⟩])).2
      = (AddRoutes (fun _ p => if p = "/users" then some "conflict" else none)
          (New "api" []) [⟨"GET", "/a", some 1, none⟩]).2
        ++ errsE StatusUnprocessableEntity .invalid "conflict"
          :: (AddRoutes (fun _ p => if p = "/users" then some "conflict" else none)
              (AddRoutes (fun _ p => if p = "/users" then some "conflict" else none)
                (New "api" []) [⟨"GET", "/a", some 1, none⟩]).1
              [⟨"GET", "/b", some 3, none⟩]).2 :=
  addRoutes_best_effort _ _ _ _ _ _ (by decide)

/-- C7: when a port is configured, Serve never consults the freeport
utility and goes straight to the listener configuration; when the port is
zero, a failed acquisition yields a structured CodeServerError/HTTP error
and no listener, and a successful one serves on the acquired port. -/
theorem serve_port_acquisition (s : Server) :
    (∀ g1 g2 : Except String Int, s.port ≠ 0 → Serve g1 s = Serve g2 s)
    ∧ (∀ g, s.port ≠ 0 → Serve g s = .ok (mkConf s))
    ∧ (∀ e, s.port = 0 →
        Serve (.error e) s = .error (errsE CodeServerError .httpErr e))
    ∧ (∀ pf, s.port = 0 →
        Serve (.ok pf) s = .ok (mkConf { s with port := pf })) := by
  refine ⟨fun g1 g2 h => by simp [Serve, h], fun g h => by simp [Serve, h],
    fun e h => by simp [Serve, h], fun pf h => by simp [Serve, h]⟩

/-- Witness for C7 at a server with port 8080 and one with port unset. -/
theorem serve_port_acquisition_instance :
    Serve (.ok 3000) (New "api" [Port 8080]) = Serve (.error "boom") (New "api" [Port 8080])
    ∧ Serve (.error "no ports") (New "api" [])
        = .error (errsE CodeServerError .httpErr "no ports")
    ∧ Serve (.ok 51321) (New "api" [])
        = .ok (mkConf { New "api" [] with port := 51321 }) :=
  ⟨(serve_port_acquisition (New "api" [Port 8080])).1 _ _ (by decide),
   (serve_port_acquisition (New "api" [])).2.2.1 _ (by decide),
   (serve_port_acquisition (New "api" [])).2.2.2 _ (by decide)⟩

/-- C8: New applies the option closures in the order given, so a later
option overrides an earlier one for the same field; in particular TLSConfig
after TLS replaces the default policy and leaves TLS enabled, and the later
of two Port options wins. -/
theorem options_in_order (name : String) (opts more : List GOption)
    (c : TLSConf) (p q : Int) :
    New name (opts ++ more) = more.foldl (fun s o => o s) (New name opts)
    ∧ (New name [TLS, TLSConfig c]).tlsconfig = c
    ∧ (New name [TLS, TLSConfig c]).tls = true
    ∧ (New name [Port p, Port q]).port = q := by
  refine ⟨?_, rfl, rfl, rfl⟩
  simp [New, List.foldl_append]

/-- C10: a route with both handler variants populated is registered with
the adapter wrapping of Handler — the raw HandlerFunc is silently
overwritten — and nothing is logged or rejected. -/
theorem bothVariants_adapted_wins (regErr : String → String → Option String)
    (s : Server) (m p : String) (hid fid : Nat)
    (h : regErr m (normalizePath p) = none) :
    AddRoutes regErr s
        [{ Method := m, Path := p, Handler := some hid, HandlerFunc := some fid }]
      = ({ s with mux := s.mux ++ [(m, normalizePath p, some (.adaptedFrom hid))] },
         []) := by
  simp [AddRoutes, addRoute, routeHFunc, h]

/-- Witness for C10 at a concrete doubly-populated route. -/
theorem bothVariants_adapted_wins_instance :
    AddRoutes (fun _ _ => none) (New "api" [])
        [{ Method := "GET", Path := "users", Handler := some 7, HandlerFunc := some 9 }]
      = ({ New "api" [] with mux := [("GET", "/users", some (.adaptedFrom 7))] },
         []) :=
  (bothVariants_adapted_wins (fun _ _ => none) (New "api" []) "GET" "users" 7 9
    rfl).trans (by decide)

end Gomux
